import Mathlib

/-!
Verification development for the pykokkos type-inference and dispatch-signature
engine (`pykokkos/interface/args_type_inference.py` and
`pykokkos/kokkos_manager/__init__.py`).

Python strings are embedded as Lean `String`, with `str.replace` and the `in`
substring test re-implemented over `List Char` (leftmost, non-overlapping
replacement, exactly as CPython does). Python dicts (which preserve insertion
order) are embedded as association lists with unique keys where insertion of an
existing key updates in place. Python exceptions are embedded as `Except String`.
-/

set_option maxRecDepth 4000

namespace PK

/-! ## Python string primitives -/

/-- Bool test that `pat` is a prefix of the second list. -/
def isPrefixL : List Char → List Char → Bool
  | [], _ => true
  | _ :: _, [] => false
  | a :: as, b :: bs => a = b && isPrefixL as bs

/-- Python `pat in s` substring test, on char lists. -/
def containsL (pat : List Char) : List Char → Bool
  | [] => pat.isEmpty
  | c :: rest => isPrefixL pat (c :: rest) || containsL pat rest

/-- Fuel-driven core of Python `str.replace`: scan left to right, replace each
non-overlapping occurrence of `pat`, continue after the replaced stretch.
The fuel only needs to be at least the length of the subject list. -/
def replaceFuel (pat rep : List Char) : Nat → List Char → List Char
  | _, [] => []
  | 0, s => s
  | fuel + 1, c :: rest =>
    if isPrefixL pat (c :: rest) then
      rep ++ replaceFuel pat rep fuel (List.drop (pat.length - 1) rest)
    else
      c :: replaceFuel pat rep fuel rest

/-- Python `s.replace(pat, rep)` for a non-empty `pat` (every pattern used by
the signature compactor is non-empty), on char lists. -/
def replaceAllL (pat rep s : List Char) : List Char :=
  if pat.isEmpty then s else replaceFuel pat rep s.length s

/-- Python `pat in s` on strings. -/
def strContains (s pat : String) : Bool := containsL pat.data s.data

/-- Python `s.replace(pat, rep)` on strings. -/
def pyReplace (s pat rep : String) : String := String.mk (replaceAllL pat.data rep.data s.data)

/-! ## Insertion-ordered dictionaries (Python `dict`) -/

/-- Python dict lookup on an association list (first matching key). -/
def lookupA {α : Type} : List (String × α) → String → Option α
  | [], _ => none
  | (k, v) :: rest, key => if k = key then some v else lookupA rest key

/-- Python dict assignment `d[k] = v`: update in place if the key is present
(keeping its position in the insertion order), else append at the end. -/
def insertA {α : Type} : List (String × α) → String → α → List (String × α)
  | [], key, v => [(key, v)]
  | (k, w) :: rest, key, v =>
    if k = key then (key, v) :: rest else (k, w) :: insertA rest key v

/-- Python `k in d`. -/
def memA {α : Type} (m : List (String × α)) (key : String) : Bool :=
  (lookupA m key).isSome

abbrev TypeMap := List (String × String)
abbrev LayoutMap := List (String × String)

/-! ## Data model

`ExecutionSpace`, `Layout`, the policy classes, views and the scalar type
enumeration live in repository modules that are not part of the shown source;
they are modelled from the spec where indicated. -/

/-- Modelled from the spec: the execution-space enumeration supplied by the
runtime configuration provider (the source refers to members `OpenMP` and
`Debug`; `Cuda`, `HIP` and `Serial` are further backends). -/
inductive ExecutionSpace
  | OpenMP
  | Cuda
  | HIP
  | Serial
  | Debug
deriving DecidableEq, Repr

/-- Modelled from the spec: the memory-layout enumeration (row-major-like,
column-major-like, and a "use the space default" marker). -/
inductive Layout
  | LayoutDefault
  | LayoutRight
  | LayoutLeft
deriving DecidableEq, Repr

/-- Modelled from the spec: default memory layout per execution space
(device spaces default to column-major-like, host spaces to row-major-like). -/
def get_default_layout (space : ExecutionSpace) : Layout :=
  match space with
  | ExecutionSpace.Cuda => Layout.LayoutLeft
  | ExecutionSpace.HIP => Layout.LayoutLeft
  | _ => Layout.LayoutRight

/-- Modelled from the spec: the element dtype carried by a view, which is
either an instance of the `DataType` enumeration (whose `.name` is a string),
a class deriving from `DataTypeClass` (whose `__name__` is a string), or
something unrecognized. -/
inductive ViewDtype
  | dtVal (name : String)
  | dtClass (name : String)
  | dtOther
deriving DecidableEq, Repr

/-- Modelled from the spec: an array/view value: an explicit layout (possibly
the default marker), a shape (its length is the rank), and an element dtype. -/
structure ViewVal where
  layout : Layout
  shape : List Nat
  dtype : ViewDtype
deriving DecidableEq, Repr

/-- A workunit (callback) parameter as seen through `inspect.signature`:
a name and an optional declared type (`none` embeds `inspect._empty`). -/
structure Param where
  name : String
  ann : Option String
deriving DecidableEq, Repr

/-- A workunit: its ordered parameter list. -/
structure Workunit where
  params : List Param
deriving DecidableEq, Repr

/-- The execution-policy variants named by the source
(`RangePolicy`, `MDRangePolicy`, `TeamPolicy`, `TeamThreadRange`), plus a
variant for any other policy class (modelled from the spec: "any other policy
kind encountered here is unsupported"). Each carries its execution space. -/
inductive ExecutionPolicy
  | range (space : ExecutionSpace) (b e : Int)
  | mdrange (space : ExecutionSpace) (b e : List Int)
  | team (space : ExecutionSpace)
  | teamThreadRange (space : ExecutionSpace)
  | otherPolicy (space : ExecutionSpace)
deriving DecidableEq, Repr

/-- The `.space` attribute of a policy. -/
def ExecutionPolicy.space : ExecutionPolicy → ExecutionSpace
  | .range s _ _ => s
  | .mdrange s _ _ => s
  | .team s => s
  | .teamThreadRange s => s
  | .otherPolicy s => s

/-- Modelled from the spec: a Python class object, distinguishing classes that
derive from `DataTypeClass` from any other class. -/
inductive PyClassV
  | dataTypeSub (name : String)
  | otherClass (name : String)
deriving DecidableEq, Repr

/-- A Python runtime value as far as the inference engine inspects one:
strings, built-in ints and floats, views, scalars whose defining module is
`numpy` (carrying `type(value).__name__`), policies, workunits, execution-space
members, classes, and anything else (carrying its type and module names). -/
inductive PyVal
  | pyStr (s : String)
  | pyInt (n : Int)
  | pyFloat
  | pyView (v : ViewVal)
  | npVal (typeName : String)
  | pyPolicy (p : ExecutionPolicy)
  | pyWorkunit (w : Workunit)
  | pyExecSpace (s : ExecutionSpace)
  | pyClass (c : PyClassV)
  | otherVal (typeName modName : String)
deriving DecidableEq, Repr

/-- Python `type(value).__name__`. -/
def typeNameOf : PyVal → String
  | .pyStr _ => "str"
  | .pyInt _ => "int"
  | .pyFloat => "float"
  | .pyView _ => "ViewImpl"
  | .npVal t => t
  | .pyPolicy _ => "ExecutionPolicy"
  | .pyWorkunit _ => "function"
  | .pyExecSpace _ => "ExecutionSpace"
  | .pyClass _ => "type"
  | .otherVal t _ => t

/-- Python `type(value).__module__`. -/
def moduleNameOf : PyVal → String
  | .pyStr _ => "builtins"
  | .pyInt _ => "builtins"
  | .pyFloat => "builtins"
  | .pyView _ => "pykokkos.interface.views"
  | .npVal _ => "numpy"
  | .pyPolicy _ => "pykokkos.interface.execution_policy"
  | .pyWorkunit _ => "user"
  | .pyExecSpace _ => "pykokkos.interface.execution_space"
  | .pyClass _ => "builtins"
  | .otherVal _ m => m

/-- Number of bits in the binary representation of `n` (`0` for `0`),
matching Python `int.bit_length` on the absolute value. Fuel-driven base-2
logarithm so that the kernel can evaluate it. -/
def log2Fuel : Nat → Nat → Nat
  | 0, _ => 0
  | fuel + 1, n => if 2 ≤ n then log2Fuel fuel (n / 2) + 1 else 0

/-- Python `value.bit_length()` for a built-in int. -/
def bitLength (n : Nat) : Nat :=
  if n = 0 then 0 else log2Fuel n n + 1

/-- Python `value.bit_length()` as an attribute access: only built-in ints
have it. -/
def pyBitLength : PyVal → Except String Nat
  | .pyInt n => .ok (bitLength n.natAbs)
  | _ => .error "AttributeError: bit_length"

/-- Python `isinstance(v, (int, float))`. -/
def isNumericPy : PyVal → Bool
  | .pyInt _ => true
  | .pyFloat => true
  | _ => false

/-! ## kokkos_manager (`pykokkos/kokkos_manager/__init__.py`) -/

/-- The `CONSTANTS` entries read and written by the operations under
verification (`EXECUTION_SPACE` and `REAL_DTYPE`). -/
structure KokkosConstants where
  execution_space : ExecutionSpace
  real_dtype : PyClassV
deriving DecidableEq, Repr

/-- `get_default_space`: the `DEBUG` environment variable forces the Debug
space, otherwise the stored process-wide default is returned. -/
def get_default_space (debug_env : Bool) (c : KokkosConstants) : ExecutionSpace :=
  if debug_env then ExecutionSpace.Debug else c.execution_space

/-- `set_default_space`: `isinstance(space, ExecutionSpace)` fails for any
non-member, in which case the function prints an error and returns, leaving
the stored constants unchanged. -/
def set_default_space (space : PyVal) (c : KokkosConstants) : KokkosConstants :=
  match space with
  | .pyExecSpace s => { c with execution_space := s }
  | _ => c

/-- `get_default_precision`. -/
def get_default_precision (c : KokkosConstants) : PyClassV :=
  c.real_dtype

/-- `set_default_precision`: `issubclass(precision, DataTypeClass)` raises
`TypeError` whenever `precision` is not a class object; for a class that is
not a `DataTypeClass` subclass the function prints an error and returns,
leaving the stored constants unchanged. -/
def set_default_precision (precision : PyVal) (c : KokkosConstants) :
    Except String KokkosConstants :=
  match precision with
  | .pyClass (.dataTypeSub nm) => .ok { c with real_dtype := .dataTypeSub nm }
  | .pyClass (.otherClass _) => .ok c
  | _ => .error "TypeError: issubclass() arg 1 must be a class"

/-! ## handle_args (Call-Shape Resolver) -/

/-- `HandledArgs`: the normalized call record built by `handle_args`. -/
structure HandledArgs where
  name : Option String
  policy : PyVal
  workunit : PyVal
  view : Option ViewVal
  initial_value : PyVal
deriving DecidableEq, Repr

/-- The final normalization step of `handle_args`: a bare-int policy becomes
`RangePolicy(km.get_default_space(), 0, n)`. -/
def normalize_int_policy (default_space : ExecutionSpace) : PyVal → PyVal
  | .pyInt n => .pyPolicy (.range default_space 0 n)
  | p => p

/-- `handle_args`: disambiguate the raw positional argument tuple of a
`parallel_*` call. Error messages embed the fixed text of the corresponding
Python exceptions (the interpolated argument tuple is omitted). -/
def handle_args (debug_env : Bool) (c : KokkosConstants) (is_for : Bool)
    (unpacked : List PyVal) : Except String HandledArgs := do
  let (name, policy, workunit, view, initial_value) ←
    match unpacked with
    | [p, w] =>
      Except.ok ((none : Option String), p, w, (none : Option ViewVal), PyVal.pyInt 0)
    | [a, b, cc] =>
      match a with
      | .pyStr s => Except.ok (some s, b, cc, (none : Option ViewVal), PyVal.pyInt 0)
      | _ =>
        match is_for, cc with
        | true, .pyView vv => Except.ok ((none : Option String), a, b, some vv, PyVal.pyInt 0)
        | _, _ =>
          if isNumericPy cc then
            Except.ok ((none : Option String), a, b, (none : Option ViewVal), cc)
          else
            Except.error "ERROR: wrong arguments"
    | [a, b, cc, d] =>
      match a with
      | .pyStr s =>
        match is_for, d with
        | true, .pyView vv => Except.ok (some s, b, cc, some vv, PyVal.pyInt 0)
        | _, _ =>
          if isNumericPy d then
            Except.ok (some s, b, cc, (none : Option ViewVal), d)
          else
            Except.error "ERROR: wrong arguments"
      | _ => Except.error "ERROR: wrong arguments"
    | _ => Except.error "ERROR: incorrect number of arguments"
  let policy := normalize_int_policy (get_default_space debug_env c) policy
  return { name := name, policy := policy, workunit := workunit, view := view,
           initial_value := initial_value }

/-! ## Type inference engine (`args_type_inference.py`) -/

/-- Modelled from the spec: the member names of the scalar `DataType`
enumeration (`dir(DataType)` without dunder attributes); the enumeration
itself lives in `pykokkos/interface/data_types.py`, outside the shown source. -/
def DataTypeMembers : List String :=
  ["int8", "int16", "int32", "int64",
   "uint8", "uint16", "uint32", "uint64",
   "float", "double", "real"]

/-- `SUPPORTED_NP_DTYPES`: the `DataType` member names plus the two aliases
for 64-bit and 32-bit floating point. -/
def SUPPORTED_NP_DTYPES : List String :=
  DataTypeMembers ++ ["float64", "float32"]

/-- `UpdatedTypes` restricted to the fields the claims are about: the
insertion-ordered inferred-type map, the inferred-layout map, and the
signature (`none` embeds the Python `None` it is initialized to). -/
structure UpdatedTypes where
  inferred_types : TypeMap
  layout_change : LayoutMap
  types_signature : Option String
deriving DecidableEq, Repr

/-- One iteration of the `infer_policy_args` loop at index `i` (the parameter
is `param_list[i]`): skip declared parameters; otherwise assign the base role
by policy class, then apply the accumulator and scan-final-pass overrides.
The guards `i + 1 = policy_params` and `i + 2 = policy_params` embed the
Python comparisons `i == policy_params - 1` and `i == policy_params - 2`. -/
def infer_policy_step (policy : PyVal) (parallel_type : String)
    (policy_params : Nat) (i : Nat) (param : Param) (m : TypeMap) :
    Except String TypeMap := do
  if param.ann.isSome then
    return m
  let m ←
    match policy with
    | .pyPolicy (.range _ _ _) =>
      Except.ok (if i = 0 then insertA m param.name "int" else m)
    | .pyPolicy (.teamThreadRange _) =>
      Except.ok (if i = 0 then insertA m param.name "int" else m)
    | .pyPolicy (.team _) =>
      Except.ok (if i = 0 then insertA m param.name "TeamMember" else m)
    | .pyPolicy (.mdrange _ b _) =>
      Except.ok (if i < b.length then insertA m param.name "int" else m)
    | _ => Except.error "Automatic annotations not supported for this policy"
  let m :=
    if (i + 1 = policy_params ∧ parallel_type = "parallel_reduce")
        ∨ (i + 2 = policy_params ∧ parallel_type = "parallel_scan") then
      insertA m param.name "Acc:double"
    else m
  let m :=
    if i + 1 = policy_params ∧ parallel_type = "parallel_scan" then
      insertA m param.name "bool"
    else m
  return m

/-- The `for i in range(policy_params)` loop of `infer_policy_args`, iterating
over an explicit index list; a missing index embeds the Python `IndexError`
from `param_list[i]`. -/
def infer_policy_go (policy : PyVal) (parallel_type : String)
    (policy_params : Nat) (param_list : List Param) :
    List Nat → TypeMap → Except String TypeMap
  | [], m => .ok m
  | i :: rest, m =>
    match param_list.get? i with
    | none => .error "IndexError: list index out of range"
    | some param =>
      (infer_policy_step policy parallel_type policy_params i param m).bind
        (infer_policy_go policy parallel_type policy_params param_list rest)

/-- `infer_policy_args` acting on the inferred-type map. -/
def infer_policy_args (param_list : List Param) (policy_params : Nat)
    (policy : PyVal) (parallel_type : String) (m : TypeMap) :
    Except String TypeMap :=
  infer_policy_go policy parallel_type policy_params param_list
    (List.range policy_params) m

/-- `get_pk_datatype`: resolve a view element dtype to a descriptor string,
mapping `float64` to `double` and `float32` to `float`; unrecognized dtypes
yield `none`. -/
def get_pk_datatype (view_dtype : ViewDtype) : Option String :=
  let dtype : Option String :=
    match view_dtype with
    | .dtVal nm => some nm
    | .dtClass nm => some nm
    | .dtOther => none
  match dtype with
  | none => none
  | some d =>
    let d := if d = "float64" then "double" else d
    let d := if d = "float32" then "float" else d
    some d

/-- The Python rendering `"LayoutRight" if layout == Layout.LayoutRight else
"LayoutLeft"`. -/
def render_layout (l : Layout) : String :=
  if l = Layout.LayoutRight then "LayoutRight" else "LayoutLeft"

/-- One iteration of the `infer_other_args` loop: record the layout of a view
value under the parameter name regardless of declaredness, skip type inference
for declared parameters, promote wide built-in ints, map numpy scalars through
the allow-list, and turn views into `View<rank>D:<dtype>` descriptors. -/
def infer_other_step (space : ExecutionSpace) (param : Param) (value : PyVal)
    (acc : TypeMap × LayoutMap) : Except String (TypeMap × LayoutMap) := do
  let (types, layouts) := acc
  let layouts :=
    match value with
    | .pyView vv =>
      let inferred_layout :=
        if vv.layout ≠ Layout.LayoutDefault then vv.layout
        else get_default_layout space
      insertA layouts param.name (render_layout inferred_layout)
    | _ => layouts
  if param.ann.isSome then
    return (types, layouts)
  let param_type := typeNameOf value
  let param_type ←
    if param_type = "int" then do
      let bl ← pyBitLength value
      pure (if 31 < bl then "numpy:int64" else param_type)
    else pure param_type
  let pckg_name := moduleNameOf value
  let param_type ←
    if pckg_name = "numpy" then
      if param_type ∉ SUPPORTED_NP_DTYPES then
        Except.error ("Numpy type " ++ param_type ++ " is unsupported")
      else
        let pt := if param_type = "float64" then "double" else param_type
        let pt := if pt = "float32" then "float" else pt
        pure (pckg_name ++ ":" ++ pt)
    else pure param_type
  let param_type ←
    match value with
    | .pyView vv =>
      match get_pk_datatype vv.dtype with
      | none => Except.error ("Cannot infer datatype for view: " ++ param.name)
      | some view_dtype =>
        pure ("View" ++ toString vv.shape.length ++ "D:" ++ view_dtype)
    | _ => pure param_type
  return (insertA types param.name param_type, layouts)

/-- The `for i in range(policy_params, len(param_list))` loop of
`infer_other_args`, iterating over the indexed tail of the parameter list;
the value for index `i` is `args_list[start_idx + i - policy_params]`, and a
missing argument embeds the Python `IndexError`. -/
def infer_other_go (space : ExecutionSpace) (args_list : List PyVal)
    (start_idx policy_params : Nat) :
    List (Nat × Param) → TypeMap × LayoutMap → Except String (TypeMap × LayoutMap)
  | [], acc => .ok acc
  | (i, param) :: rest, acc =>
    match args_list.get? (start_idx + i - policy_params) with
    | none => .error "IndexError: list index out of range"
    | some value =>
      (infer_other_step space param value acc).bind
        (infer_other_go space args_list start_idx policy_params rest)

/-- `infer_other_args` acting on the two inference maps. -/
def infer_other_args (param_list : List Param) (policy_params : Nat)
    (args_list : List PyVal) (start_idx : Nat) (space : ExecutionSpace)
    (acc : TypeMap × LayoutMap) : Except String (TypeMap × LayoutMap) :=
  infer_other_go space args_list start_idx policy_params
    (param_list.enum.drop policy_params) acc

/-! ## get_types_sig (Signature Compactor) -/

/-- The signature-building loop of `get_types_sig` on char lists: append each
type descriptor in map order and, when the descriptor contains `View` and the
parameter name has a layout entry, append that layout tag. -/
def build_sig (layouts : LayoutMap) : TypeMap → List Char
  | [] => []
  | (name, i_type) :: rest =>
    let piece :=
      if containsL "View".data i_type.data then
        match lookupA layouts name with
        | some l => i_type.data ++ l.data
        | none => i_type.data
      else i_type.data
    piece ++ build_sig layouts rest

/-- The fallback loop of `get_types_sig`: when the built signature is empty,
append `name ++ layout` for every layout entry. -/
def build_layout_sig : LayoutMap → List Char
  | [] => []
  | (name, l_type) :: rest => name.data ++ l_type.data ++ build_layout_sig rest

/-- The fixed contraction sequence applied by `get_types_sig`, in source
order. -/
def compact_sig (s : List Char) : List Char :=
  let s := replaceAllL "View".data "".data s
  let s := replaceAllL "Acc:".data "".data s
  let s := replaceAllL "TeamMember".data "T".data s
  let s := replaceAllL "numpy:".data "np".data s
  let s := replaceAllL "LayoutRight".data "R".data s
  let s := replaceAllL "LayoutLeft".data "L".data s
  let s := replaceAllL ":".data "".data s
  let s := replaceAllL "double".data "d".data s
  let s := replaceAllL "int".data "i".data s
  let s := replaceAllL "bool".data "b".data s
  let s := replaceAllL "float".data "f".data s
  s

/-- `get_types_sig`: `None` when both maps are empty, else the compacted
signature string. -/
def get_types_sig (inferred_types : TypeMap) (inferred_layouts : LayoutMap) :
    Option String :=
  if inferred_layouts.isEmpty ∧ inferred_types.isEmpty then none
  else
    let signature := build_sig inferred_layouts inferred_types
    let signature :=
      if signature.isEmpty then build_layout_sig inferred_layouts else signature
    some (String.mk (compact_sig signature))

/-! ## get_annotations -/

/-- `policy_params` as computed by `get_annotations`: `len(policy.begin)` for
an `MDRangePolicy`, else 1, plus 1 for a reduction and 2 for a scan. -/
def policy_params_of (policy : PyVal) (parallel_type : String) : Nat :=
  (match policy with
   | .pyPolicy (.mdrange _ b _) => b.length
   | _ => 1)
  + (if parallel_type = "parallel_reduce" then 1 else 0)
  + (if parallel_type = "parallel_scan" then 2 else 0)

/-- The keyword-argument queuing step of `get_annotations`: the values of
keyword arguments whose names match trailing parameters are appended to the
argument list, in parameter order. -/
def kwargs_values (param_list : List Param) (policy_params : Nat)
    (passed_kwargs : List (String × PyVal)) : List PyVal :=
  (param_list.drop policy_params).filterMap
    (fun param => lookupA passed_kwargs param.name)

/-- The `.space` attribute access on the policy held by `HandledArgs`. -/
def policy_space : PyVal → Except String ExecutionSpace
  | .pyPolicy p => .ok p.space
  | _ => .error "AttributeError: space"

/-- `get_annotations`: run policy-role inference, return early when every
parameter is policy-owned, queue keyword arguments, check the argument-count
assertion, run value-driven inference, and attach the compacted signature.
`.ok none` embeds the Python `None` returns, errors embed the raised
exceptions (with interpolated text omitted from the messages). -/
def get_annotations (parallel_type : String) (handled_args : HandledArgs)
    (args : List PyVal) (passed_kwargs : List (String × PyVal)) :
    Except String (Option UpdatedTypes) := do
  let wu ←
    match handled_args.workunit with
    | .pyWorkunit w => Except.ok w
    | _ => Except.error "TypeError: workunit is not inspectable"
  let param_list := wu.params
  let policy_params := policy_params_of handled_args.policy parallel_type
  let types0 ←
    infer_policy_args param_list policy_params handled_args.policy parallel_type []
  if param_list.length = policy_params then
    if types0.isEmpty then return none
    return some { inferred_types := types0, layout_change := [],
                  types_signature := none }
  let args_list := args ++ kwargs_values param_list policy_params passed_kwargs
  let value_idx : Nat := if handled_args.name ≠ none then 3 else 2
  if ¬ ((param_list.length : Int) - (policy_params : Int)
        = (args_list.length : Int) - (value_idx : Int)) then
    Except.error "AssertionError: Unannotated arguments mismatch"
  else do
    let space ← policy_space handled_args.policy
    let maps ←
      infer_other_args param_list policy_params args_list value_idx space
        (types0, [])
    let (types, layouts) := maps
    if types.isEmpty ∧ layouts.isEmpty then return none
    return some { inferred_types := types, layout_change := layouts,
                  types_signature := get_types_sig types layouts }

/-! ## Map lemmas -/

/-- `pure` in the `Except String` monad is `Except.ok`. -/
@[simp] theorem exceptPure_eq_ok {A : Type} (a : A) :
    (pure a : Except String A) = Except.ok a := rfl

/-- Bind of a success in the `Except String` monad. -/
@[simp] theorem exceptBind_ok {A B : Type} (a : A) (f : A → Except String B) :
    (Except.ok a : Except String A) >>= f = f a := rfl

/-- Bind of a failure in the `Except String` monad. -/
@[simp] theorem exceptBind_error {A B : Type} (e : String) (f : A → Except String B) :
    (Except.error e : Except String A) >>= f = Except.error e := rfl

theorem lookupA_insertA_self {α : Type} (m : List (String × α)) (k : String) (v : α) :
    lookupA (insertA m k v) k = some v := by
  induction m with
  | nil => simp [insertA, lookupA]
  | cons hd tl ih =>
    obtain ⟨k0, v0⟩ := hd
    by_cases h : k0 = k <;> simp [insertA, lookupA, h, ih]

theorem lookupA_insertA_ne {α : Type} (m : List (String × α)) (k key : String) (v : α)
    (h : k ≠ key) : lookupA (insertA m k v) key = lookupA m key := by
  induction m with
  | nil => simp [insertA, lookupA, h]
  | cons hd tl ih =>
    obtain ⟨k0, v0⟩ := hd
    by_cases h0 : k0 = k
    · subst h0
      simp [insertA, lookupA, h]
    · simp [insertA, lookupA, h0, ih]

theorem insertA_insertA {α : Type} (m : List (String × α)) (k : String) (v w : α) :
    insertA (insertA m k v) k w = insertA m k w := by
  induction m with
  | nil => simp [insertA]
  | cons hd tl ih =>
    obtain ⟨k0, v0⟩ := hd
    by_cases h : k0 = k <;> simp [insertA, h, ih]

/-! ## String lemmas -/

/-- `String.mk` turns list append into string append. -/
@[simp] theorem stringMk_append (a b : List Char) :
    String.mk (a ++ b) = String.mk a ++ String.mk b := rfl

/-- `String.mk` is inverse to `String.data`. -/
@[simp] theorem stringMk_data (s : String) : String.mk s.data = s := rfl

/-- `String.data` of `String.mk`. -/
@[simp] theorem string_data_mk (l : List Char) : (String.mk l).data = l := rfl

/-- A string with non-empty data is not the empty string. -/
theorem string_ne_empty_of_data (s : String) (h : s.data ≠ []) : s ≠ "" := by
  intro hs
  exact h (by rw [hs])

/-! ## Spec-side rendering of the claim C1 algorithm -/

/-- The contraction sequence stated by claim C1, in its order. -/
def contraction_sequence : List (String × String) :=
  [("View", ""), ("Acc:", ""), ("TeamMember", "T"), ("numpy:", "np"),
   ("LayoutRight", "R"), ("LayoutLeft", "L"), (":", ""), ("double", "d"),
   ("int", "i"), ("bool", "b"), ("float", "f")]

/-- Modelled from the spec (claim C1 wording): iterate the type map in its
insertion order; for each entry append its type descriptor and, when the
descriptor contains the array marker and the same parameter name has a layout
entry, that layout tag immediately after. -/
def build_sig_spec (layouts : LayoutMap) : TypeMap → String
  | [] => ""
  | (name, t) :: rest =>
    (t ++ (if strContains t "View" && memA layouts name then
             (lookupA layouts name).getD "" else ""))
      ++ build_sig_spec layouts rest

/-- Modelled from the spec (claim C1 wording): apply the contraction sequence
in order. -/
def apply_contractions (s : String) : String :=
  contraction_sequence.foldl (fun acc pr => pyReplace acc pr.1 pr.2) s

/-- The spec-side build agrees with the source's signature loop. -/
theorem build_sig_spec_eq (layouts : LayoutMap) (types : TypeMap) :
    build_sig_spec layouts types = String.mk (build_sig layouts types) := by
  induction types with
  | nil => rfl
  | cons hd tl ih =>
    obtain ⟨name, t⟩ := hd
    rw [build_sig_spec, build_sig, ih]
    cases hlk : lookupA layouts name <;>
      by_cases hv : containsL "View".data t.data <;>
        simp [strContains, memA, hlk, hv, String.append_assoc]

/-- The spec-side contraction sequence agrees with the source's replace
chain. -/
theorem apply_contractions_eq (s : List Char) :
    apply_contractions (String.mk s) = String.mk (compact_sig s) := by
  simp only [apply_contractions, contraction_sequence, List.foldl, compact_sig,
    pyReplace, string_data_mk]

/-- The signature loop yields non-empty text when the type map has an entry
with a non-empty descriptor. -/
theorem build_sig_ne_nil (layouts : LayoutMap) (types : TypeMap)
    (hne : types ≠ []) (hdesc : ∀ p ∈ types, p.2 ≠ "") :
    (build_sig layouts types).isEmpty = false := by
  match types with
  | [] => exact absurd rfl hne
  | (name, t) :: rest =>
    have ht : t ≠ "" := hdesc (name, t) (by simp)
    have htd : t.data ≠ [] := by
      intro h
      apply ht
      have hmk : t = String.mk t.data := (stringMk_data t).symm
      rw [hmk, h]
    rcases ht' : t.data with _ | ⟨c, cs⟩
    · exact absurd ht' htd
    · rw [build_sig]
      simp only [ht']
      split
      · split <;> simp
      · simp

/-- `get_types_sig` on a single-entry type map holding an array descriptor
with a matching layout entry. -/
theorem get_types_sig_single_view (nm tag : String) :
    get_types_sig [(nm, "View2D:double")] [(nm, tag)]
      = some (String.mk (compact_sig ("View2D:double".data ++ tag.data))) := by
  have hc : containsL "View".data "View2D:double".data = true := by decide
  have hlk : lookupA [(nm, tag)] nm = some tag := by simp [lookupA]
  have hb : build_sig [(nm, tag)] [(nm, "View2D:double")]
      = "View2D:double".data ++ tag.data := by
    rw [build_sig, build_sig]
    simp [hlk, hc]
  rw [get_types_sig, hb]
  simp [List.isEmpty]

/-- `build_sig` only consults layout entries of names carried by the type map
with a `View`-containing descriptor. -/
theorem build_sig_congr (types : TypeMap) (l1 l2 : LayoutMap)
    (hagree : ∀ p ∈ types, containsL "View".data (p.2 : String).data = true →
      lookupA l1 p.1 = lookupA l2 p.1) :
    build_sig l1 types = build_sig l2 types := by
  induction types with
  | nil => rfl
  | cons hd tl ih =>
    obtain ⟨name, t⟩ := hd
    rw [build_sig, build_sig]
    have hrest := ih (fun p hp hv => hagree p (List.mem_cons_of_mem _ hp) hv)
    rw [hrest]
    by_cases hv : containsL "View".data t.data
    · rw [hagree (name, t) (List.mem_cons_self _ _) hv]
    · simp [hv]

/-! ## Claim theorems -/

/-- Claim C5: a built-in integer value bound to an undeclared value parameter
is inferred as `int` when its bit-length is at most 31 and as `numpy:int64`
when its bit-length is 32 or more, with the boundary exactly between
bit-length 31 and 32. -/
theorem C5_int_promotion (space : ExecutionSpace) (name : String) (n : Int)
    (types : TypeMap) (layouts : LayoutMap) :
    infer_other_step space ⟨name, none⟩ (.pyInt n) (types, layouts)
      = .ok (insertA types name
          (if 31 < bitLength n.natAbs then "numpy:int64" else "int"), layouts)
    ∧ (bitLength n.natAbs ≤ 31 →
        infer_other_step space ⟨name, none⟩ (.pyInt n) (types, layouts)
          = .ok (insertA types name "int", layouts))
    ∧ (32 ≤ bitLength n.natAbs →
        infer_other_step space ⟨name, none⟩ (.pyInt n) (types, layouts)
          = .ok (insertA types name "numpy:int64", layouts)) := by
  have hmain : infer_other_step space ⟨name, none⟩ (.pyInt n) (types, layouts)
      = .ok (insertA types name
          (if 31 < bitLength n.natAbs then "numpy:int64" else "int"), layouts) := by
    by_cases h : 31 < bitLength n.natAbs <;>
      simp [infer_other_step, typeNameOf, moduleNameOf, pyBitLength, h]
  refine ⟨hmain, fun hle => ?_, fun hge => ?_⟩
  · rw [hmain]
    have : ¬ 31 < bitLength n.natAbs := by omega
    simp [this]
  · rw [hmain]
    have : 31 < bitLength n.natAbs := by omega
    simp [this]

/-- Witness for C5 at the promotion boundary: `2 ^ 31 - 1` (bit-length 31)
stays `int`, `2 ^ 31` (bit-length 32) promotes to `numpy:int64`. -/
theorem C5_int_promotion_witness :
    infer_other_step .OpenMP ⟨"x", none⟩ (.pyInt 2147483647) ([], [])
      = .ok ([("x", "int")], [])
    ∧ infer_other_step .OpenMP ⟨"x", none⟩ (.pyInt 2147483648) ([], [])
      = .ok ([("x", "numpy:int64")], []) := by
  constructor
  · exact (C5_int_promotion .OpenMP "x" 2147483647 [] []).2.1 (by decide)
  · exact (C5_int_promotion .OpenMP "x" 2147483648 [] []).2.2 (by decide)

/-- Claim C6: a numpy-module scalar bound to an undeclared value parameter
must have its concrete type name in `SUPPORTED_NP_DTYPES`, else inference
raises the unsupported-type error; on success `float64` maps to `double`,
`float32` maps to `float`, and the descriptor is prefixed with `numpy:`.
(The hypothesis `t ≠ "int"` records that no numpy scalar type is named
`int`, so the built-in-int promotion branch is not taken.) -/
theorem C6_numpy_scalar (space : ExecutionSpace) (name t : String)
    (types : TypeMap) (layouts : LayoutMap) (hnotint : t ≠ "int") :
    (t ∉ SUPPORTED_NP_DTYPES →
       infer_other_step space ⟨name, none⟩ (.npVal t) (types, layouts)
         = .error ("Numpy type " ++ t ++ " is unsupported"))
    ∧ (t ∈ SUPPORTED_NP_DTYPES →
       infer_other_step space ⟨name, none⟩ (.npVal t) (types, layouts)
         = .ok (insertA types name
             ("numpy:" ++ (if t = "float64" then "double"
                           else if t = "float32" then "float" else t)),
             layouts)) := by
  constructor
  · intro hmem
    simp [infer_other_step, typeNameOf, moduleNameOf, hnotint, hmem]
  · intro hmem
    by_cases h64 : t = "float64"
    · subst h64
      simp [infer_other_step, typeNameOf, moduleNameOf, hmem, exceptPure_eq_ok]
    · by_cases h32 : t = "float32"
      · subst h32
        simp [infer_other_step, typeNameOf, moduleNameOf, hmem, exceptPure_eq_ok]
      · simp [infer_other_step, typeNameOf, moduleNameOf, hnotint, hmem, h64, h32, exceptPure_eq_ok]

/-- Witness for C6: an unsupported numpy kind (`complex128`) errors, and a
supported one (`float64`) infers `numpy:double`. -/
theorem C6_numpy_scalar_witness :
    infer_other_step .OpenMP ⟨"x", none⟩ (.npVal "complex128") ([], [])
      = .error "Numpy type complex128 is unsupported"
    ∧ infer_other_step .OpenMP ⟨"x", none⟩ (.npVal "float64") ([], [])
      = .ok ([("x", "numpy:double")], []) := by
  constructor
  · exact (C6_numpy_scalar .OpenMP "x" "complex128" [] [] (by decide)).1 (by decide)
  · exact (C6_numpy_scalar .OpenMP "x" "float64" [] [] (by decide)).2 (by decide)

/-- Claim C7: an array/view value bound to a value parameter always records a
layout entry under the parameter name (the explicit layout when set, else the
execution space's default); if the parameter is undeclared its type is
inferred as `View<rank>D:<element-type>` with the rank taken from the shape
and the dtype aliased through float64-to-double and float32-to-float; an
unresolvable dtype raises an error naming the parameter. -/
theorem C7_view_inference (space : ExecutionSpace) (param : Param) (vv : ViewVal)
    (types : TypeMap) (layouts : LayoutMap) :
    (param.ann.isSome →
       infer_other_step space param (.pyView vv) (types, layouts)
         = .ok (types, insertA layouts param.name
             (render_layout (if vv.layout ≠ Layout.LayoutDefault then vv.layout
                             else get_default_layout space))))
    ∧ (param.ann = none → ∀ dt, get_pk_datatype vv.dtype = some dt →
       infer_other_step space param (.pyView vv) (types, layouts)
         = .ok (insertA types param.name
             ("View" ++ toString vv.shape.length ++ "D:" ++ dt),
             insertA layouts param.name
             (render_layout (if vv.layout ≠ Layout.LayoutDefault then vv.layout
                             else get_default_layout space))))
    ∧ (param.ann = none → get_pk_datatype vv.dtype = none →
       infer_other_step space param (.pyView vv) (types, layouts)
         = .error ("Cannot infer datatype for view: " ++ param.name))
    ∧ (∀ nm, get_pk_datatype (.dtVal nm)
         = some (if nm = "float64" then "double"
                 else if nm = "float32" then "float" else nm))
    ∧ (∀ nm, get_pk_datatype (.dtClass nm)
         = some (if nm = "float64" then "double"
                 else if nm = "float32" then "float" else nm)) := by
  refine ⟨?_, ?_, ?_, ?_, ?_⟩
  · intro hann
    simp [infer_other_step, hann, exceptPure_eq_ok]
  · intro hann dt hdt
    simp [infer_other_step, typeNameOf, moduleNameOf, hann, hdt, exceptPure_eq_ok]
  · intro hann hdt
    simp [infer_other_step, typeNameOf, moduleNameOf, hann, hdt, exceptPure_eq_ok]
  · intro nm
    by_cases h64 : nm = "float64"
    · subst h64; simp [get_pk_datatype]
    · by_cases h32 : nm = "float32"
      · subst h32; simp [get_pk_datatype]
      · simp [get_pk_datatype, h64, h32]
  · intro nm
    by_cases h64 : nm = "float64"
    · subst h64; simp [get_pk_datatype]
    · by_cases h32 : nm = "float32"
      · subst h32; simp [get_pk_datatype]
      · simp [get_pk_datatype, h64, h32]

/-- Witness for C7: a 2-dimensional double view with default layout on OpenMP
infers `View2D:double` with a `LayoutRight` layout entry; a declared parameter
still records the layout; an unresolvable dtype errors with the parameter
name. -/
theorem C7_view_inference_witness :
    infer_other_step .OpenMP ⟨"v", none⟩
        (.pyView ⟨Layout.LayoutDefault, [4, 4], .dtVal "double"⟩) ([], [])
      = .ok ([("v", "View2D:double")], [("v", "LayoutRight")])
    ∧ infer_other_step .OpenMP ⟨"w", some "pk.View2d"⟩
        (.pyView ⟨Layout.LayoutLeft, [4, 4], .dtVal "double"⟩) ([], [])
      = .ok ([], [("w", "LayoutLeft")])
    ∧ infer_other_step .OpenMP ⟨"u", none⟩
        (.pyView ⟨Layout.LayoutDefault, [4], .dtOther⟩) ([], [])
      = .error "Cannot infer datatype for view: u" := by
  refine ⟨?_, ?_, ?_⟩
  · exact (C7_view_inference .OpenMP ⟨"v", none⟩
      ⟨Layout.LayoutDefault, [4, 4], .dtVal "double"⟩ [] []).2.1 rfl "double" rfl
  · exact (C7_view_inference .OpenMP ⟨"w", some "pk.View2d"⟩
      ⟨Layout.LayoutLeft, [4, 4], .dtVal "double"⟩ [] []).1 rfl
  · exact (C7_view_inference .OpenMP ⟨"u", none⟩
      ⟨Layout.LayoutDefault, [4], .dtOther⟩ [] []).2.2.1 rfl rfl

/-- Claim C10 (amended): `set_default_space` ignores any argument that is not
an `ExecutionSpace` member, leaving the stored default (and every subsequent
read) unchanged; `set_default_precision` ignores a class argument that is not
a `DataTypeClass` subclass, but raises `TypeError` (from `issubclass`) when
the argument is not a class at all. -/
theorem C10_setters_wrong_type (debug_env : Bool) (c : KokkosConstants) (v : PyVal) :
    ((∀ s, v ≠ .pyExecSpace s) →
       set_default_space v c = c
       ∧ get_default_space debug_env (set_default_space v c)
           = get_default_space debug_env c)
    ∧ (∀ nm, set_default_precision (.pyClass (.otherClass nm)) c = .ok c
       ∧ get_default_precision c = get_default_precision c)
    ∧ ((∀ cv, v ≠ .pyClass cv) →
       set_default_precision v c
         = .error "TypeError: issubclass() arg 1 must be a class") := by
  refine ⟨?_, ?_, ?_⟩
  · intro h
    have hs : set_default_space v c = c := by
      cases v <;> first | rfl | exact absurd rfl (h _)
    exact ⟨hs, by rw [hs]⟩
  · intro nm
    exact ⟨rfl, rfl⟩
  · intro h
    cases v with
    | pyClass cv => exact absurd rfl (h cv)
    | _ => rfl

/-- Witness for C10 (amended), at a concrete store: an int is ignored by
`set_default_space`, a non-`DataTypeClass` class is ignored by
`set_default_precision`, and an int makes `set_default_precision` raise. -/
theorem C10_setters_wrong_type_witness :
    set_default_space (.pyInt 7) ⟨.OpenMP, .dataTypeSub "double"⟩
      = ⟨.OpenMP, .dataTypeSub "double"⟩
    ∧ set_default_precision (.pyClass (.otherClass "int"))
        ⟨.OpenMP, .dataTypeSub "double"⟩ = .ok ⟨.OpenMP, .dataTypeSub "double"⟩
    ∧ set_default_precision (.pyInt 7) ⟨.OpenMP, .dataTypeSub "double"⟩
      = .error "TypeError: issubclass() arg 1 must be a class" := by
  refine ⟨?_, ?_, ?_⟩
  · exact ((C10_setters_wrong_type false ⟨.OpenMP, .dataTypeSub "double"⟩ (.pyInt 7)).1
      (by intro s h; cases h)).1
  · exact ((C10_setters_wrong_type false ⟨.OpenMP, .dataTypeSub "double"⟩ (.pyInt 7)).2.1
      "int").1
  · exact (C10_setters_wrong_type false ⟨.OpenMP, .dataTypeSub "double"⟩ (.pyInt 7)).2.2
      (by intro cv h; cases h)

/-- Claim C3: on a 3-element argument tuple, `handle_args` binds
(label, policy, callback) when the first element is a string; else, for an
element-wise dispatch with a view third element, (policy, callback,
output-array); else, for a numeric third element, (policy, callback,
initial-value); else it raises with no partial result. Any policy slot holding
a bare integer `n` is normalized to a flat range policy over `[0, n)` on the
process-wide default execution space. -/
theorem C3_call_shape_resolver (debug_env : Bool) (c : KokkosConstants)
    (is_for : Bool) (a b cc : PyVal) :
    (∀ s, a = .pyStr s →
       handle_args debug_env c is_for [a, b, cc]
         = .ok ⟨some s, normalize_int_policy (get_default_space debug_env c) b,
                cc, none, .pyInt 0⟩)
    ∧ ((∀ s, a ≠ .pyStr s) → is_for = true → ∀ vv, cc = .pyView vv →
       handle_args debug_env c is_for [a, b, cc]
         = .ok ⟨none, normalize_int_policy (get_default_space debug_env c) a,
                b, some vv, .pyInt 0⟩)
    ∧ ((∀ s, a ≠ .pyStr s) → (is_for = false ∨ ∀ vv, cc ≠ .pyView vv) →
       isNumericPy cc = true →
       handle_args debug_env c is_for [a, b, cc]
         = .ok ⟨none, normalize_int_policy (get_default_space debug_env c) a,
                b, none, cc⟩)
    ∧ ((∀ s, a ≠ .pyStr s) → (is_for = false ∨ ∀ vv, cc ≠ .pyView vv) →
       isNumericPy cc = false →
       handle_args debug_env c is_for [a, b, cc]
         = .error "ERROR: wrong arguments")
    ∧ (∀ n : Int, normalize_int_policy (get_default_space debug_env c) (.pyInt n)
         = .pyPolicy (.range (get_default_space debug_env c) 0 n)) := by
  refine ⟨?_, ?_, ?_, ?_, ?_⟩
  · intro s hs
    subst hs
    simp [handle_args]
  · intro hns hfor vv hv
    subst hv hfor
    cases a <;> simp_all [handle_args]
  · intro hns hnv hnum
    rcases hnv with hfor | hnv
    · subst hfor
      cases a <;> cases cc <;> simp_all [handle_args, isNumericPy]
    · cases a <;> cases cc <;> simp_all [handle_args, isNumericPy]
  · intro hns hnv hnum
    rcases hnv with hfor | hnv
    · subst hfor
      cases a <;> cases cc <;> simp_all [handle_args, isNumericPy]
    · cases a <;> cases cc <;> simp_all [handle_args, isNumericPy]
  · intro n
    rfl

/-- Witness for C3 on concrete tuples: a labelled call, an element-wise call
with a trailing view, a reduction call with a numeric initial value, a
shape error, and the bare-integer policy normalization. -/
theorem C3_call_shape_resolver_witness :
    handle_args false ⟨.OpenMP, .dataTypeSub "double"⟩ true
        [.pyStr "lbl", .pyInt 5, .pyWorkunit ⟨[]⟩]
      = .ok ⟨some "lbl", .pyPolicy (.range .OpenMP 0 5), .pyWorkunit ⟨[]⟩,
             none, .pyInt 0⟩
    ∧ handle_args false ⟨.OpenMP, .dataTypeSub "double"⟩ true
        [.pyPolicy (.range .OpenMP 0 5), .pyWorkunit ⟨[]⟩,
         .pyView ⟨Layout.LayoutDefault, [4], .dtVal "double"⟩]
      = .ok ⟨none, .pyPolicy (.range .OpenMP 0 5), .pyWorkunit ⟨[]⟩,
             some ⟨Layout.LayoutDefault, [4], .dtVal "double"⟩, .pyInt 0⟩
    ∧ handle_args false ⟨.OpenMP, .dataTypeSub "double"⟩ false
        [.pyPolicy (.range .OpenMP 0 5), .pyWorkunit ⟨[]⟩, .pyFloat]
      = .ok ⟨none, .pyPolicy (.range .OpenMP 0 5), .pyWorkunit ⟨[]⟩,
             none, .pyFloat⟩
    ∧ handle_args false ⟨.OpenMP, .dataTypeSub "double"⟩ false
        [.pyPolicy (.range .OpenMP 0 5), .pyWorkunit ⟨[]⟩, .pyStr "oops"]
      = .error "ERROR: wrong arguments" := by
  refine ⟨?_, ?_, ?_, ?_⟩
  · exact (C3_call_shape_resolver false ⟨.OpenMP, .dataTypeSub "double"⟩ true
      (.pyStr "lbl") (.pyInt 5) (.pyWorkunit ⟨[]⟩)).1 "lbl" rfl
  · exact (C3_call_shape_resolver false ⟨.OpenMP, .dataTypeSub "double"⟩ true
      (.pyPolicy (.range .OpenMP 0 5)) (.pyWorkunit ⟨[]⟩)
      (.pyView ⟨Layout.LayoutDefault, [4], .dtVal "double"⟩)).2.1
      (by intro s h; cases h) rfl _ rfl
  · exact (C3_call_shape_resolver false ⟨.OpenMP, .dataTypeSub "double"⟩ false
      (.pyPolicy (.range .OpenMP 0 5)) (.pyWorkunit ⟨[]⟩) .pyFloat).2.2.1
      (by intro s h; cases h) (Or.inl rfl) rfl
  · exact (C3_call_shape_resolver false ⟨.OpenMP, .dataTypeSub "double"⟩ false
      (.pyPolicy (.range .OpenMP 0 5)) (.pyWorkunit ⟨[]⟩)
      (.pyStr "oops")).2.2.2.1 (by intro s h; cases h) (Or.inl rfl) rfl

/-- Counterexample to claim C10 as stated: calling `set_default_precision`
with the integer `5` (a value that is not a `DataTypeClass` subclass) does not
return silently; `issubclass` raises `TypeError`. -/
theorem C10_counterexample :
    set_default_precision (.pyInt 5) ⟨.OpenMP, .dataTypeSub "double"⟩
      = .error "TypeError: issubclass() arg 1 must be a class" := rfl

/-- Claim C1: on a non-empty inferred-type map (whose descriptors, as produced
by inference, are non-empty strings), `get_types_sig` builds the signature by
iterating the type map in insertion order, appending each descriptor and, when
it contains the array marker and the name has a layout entry, the layout tag,
and then applies exactly the claimed contraction sequence in order; in
particular a `View2D:double` entry with a layout entry compacts to a string
with no literal `View`, `Acc:`, or `Layout` substring. -/
theorem C1_signature_compaction (types : TypeMap) (layouts : LayoutMap)
    (hne : types ≠ []) (hdesc : ∀ p ∈ types, p.2 ≠ "") :
    get_types_sig types layouts
      = some (apply_contractions (build_sig_spec layouts types))
    ∧ (∀ nm tag, tag = "LayoutRight" ∨ tag = "LayoutLeft" →
        ∃ s, get_types_sig [(nm, "View2D:double")] [(nm, tag)] = some s
          ∧ strContains s "View" = false
          ∧ strContains s "Acc:" = false
          ∧ strContains s "Layout" = false) := by
  constructor
  · have h1 := build_sig_ne_nil layouts types hne hdesc
    rw [build_sig_spec_eq, apply_contractions_eq]
    rcases types with _ | ⟨hd, tl⟩
    · exact absurd rfl hne
    · rw [get_types_sig]
      rcases hbs : build_sig layouts (hd :: tl) with _ | ⟨c, cs⟩
      · rw [hbs] at h1
        simp [List.isEmpty] at h1
      · simp [hbs, List.isEmpty]
  · intro nm tag htag
    rcases htag with h | h <;> subst h <;>
      exact ⟨_, get_types_sig_single_view nm _, by decide, by decide, by decide⟩

/-- Witness for C1: a concrete two-entry map (an `int` index and a 2-D double
view with a `LayoutLeft` entry) compacts through the claimed contraction
sequence to `i2DdL`. -/
theorem C1_signature_compaction_witness :
    get_types_sig [("i", "int"), ("v", "View2D:double")] [("v", "LayoutLeft")]
      = some (apply_contractions
          (build_sig_spec [("v", "LayoutLeft")] [("i", "int"), ("v", "View2D:double")]))
    ∧ apply_contractions
        (build_sig_spec [("v", "LayoutLeft")] [("i", "int"), ("v", "View2D:double")])
      = "i2DdL" := by
  constructor
  · exact (C1_signature_compaction [("i", "int"), ("v", "View2D:double")]
      [("v", "LayoutLeft")] (by decide) (by decide)).1
  · decide

/-- Claim C9: when the inferred-type map is non-empty (with the non-empty
descriptors inference produces), the signature depends only on the type map
and on layout entries whose name appears there with an array descriptor: any
two layout maps agreeing on those names give byte-identical signatures, so a
layout recorded for a declared view parameter (absent from the type map) never
influences the signature. -/
theorem C9_layout_independence (types : TypeMap) (l1 l2 : LayoutMap)
    (hne : types ≠ []) (hdesc : ∀ p ∈ types, p.2 ≠ "")
    (hagree : ∀ p ∈ types, strContains p.2 "View" = true →
      lookupA l1 p.1 = lookupA l2 p.1) :
    get_types_sig types l1 = get_types_sig types l2 := by
  have hb : build_sig l1 types = build_sig l2 types :=
    build_sig_congr types l1 l2 (fun p hp hv => hagree p hp hv)
  have h1 : (build_sig l1 types).isEmpty = false := build_sig_ne_nil l1 types hne hdesc
  have h2 : (build_sig l2 types).isEmpty = false := hb ▸ h1
  rcases types with _ | ⟨hd, tl⟩
  · exact absurd rfl hne
  · rw [get_types_sig, get_types_sig, hb]
    rcases hbs : build_sig l2 (hd :: tl) with _ | ⟨c, cs⟩
    · rw [hbs] at h2
      simp [List.isEmpty] at h2
    · simp [hbs, List.isEmpty]

/-- Witness for C9: concretely, a layout entry for a name outside the type map
does not change the signature; end to end, two dispatch calls differing only
in the layout of a view bound to a parameter with a declared type produce
byte-identical `i` signatures. -/
theorem C9_layout_independence_witness :
    get_types_sig [("i", "int")] [("v", "LayoutLeft")]
      = get_types_sig [("i", "int")] [("v", "LayoutRight")]
    ∧ get_annotations "parallel_for"
        ⟨none, .pyPolicy (.range .OpenMP 0 10),
         .pyWorkunit ⟨[⟨"i", none⟩, ⟨"v", some "View1D"⟩]⟩, none, .pyInt 0⟩
        [.pyPolicy (.range .OpenMP 0 10),
         .pyWorkunit ⟨[⟨"i", none⟩, ⟨"v", some "View1D"⟩]⟩,
         .pyView ⟨Layout.LayoutLeft, [4], .dtVal "double"⟩] []
      = .ok (some ⟨[("i", "int")], [("v", "LayoutLeft")], some "i"⟩)
    ∧ get_annotations "parallel_for"
        ⟨none, .pyPolicy (.range .OpenMP 0 10),
         .pyWorkunit ⟨[⟨"i", none⟩, ⟨"v", some "View1D"⟩]⟩, none, .pyInt 0⟩
        [.pyPolicy (.range .OpenMP 0 10),
         .pyWorkunit ⟨[⟨"i", none⟩, ⟨"v", some "View1D"⟩]⟩,
         .pyView ⟨Layout.LayoutRight, [4], .dtVal "double"⟩] []
      = .ok (some ⟨[("i", "int")], [("v", "LayoutRight")], some "i"⟩) := by
  refine ⟨?_, ?_, ?_⟩
  · exact C9_layout_independence [("i", "int")] [("v", "LayoutLeft")]
      [("v", "LayoutRight")] (by decide) (by decide) (by decide)
  · rfl
  · rfl

/-- `get_types_sig` only returns `none` when both maps are empty. -/
theorem get_types_sig_ne_none (types : TypeMap) (layouts : LayoutMap)
    (h : ¬(layouts.isEmpty = true ∧ types.isEmpty = true)) :
    get_types_sig types layouts ≠ none := by
  rw [get_types_sig]
  rw [if_neg h]
  simp

/-- Counterexample to claim C2 as stated: a dispatch whose every callback
parameter is policy-owned returns a result whose inferred-type map is
non-empty while its signature field is `None` (the early return of
`get_annotations` never reaches `get_types_sig`). -/
theorem C2_counterexample :
    get_annotations "parallel_for"
        ⟨none, .pyPolicy (.range .OpenMP 0 10), .pyWorkunit ⟨[⟨"i", none⟩]⟩,
         none, .pyInt 0⟩
        [.pyPolicy (.range .OpenMP 0 10), .pyWorkunit ⟨[⟨"i", none⟩]⟩] []
      = .ok (some ⟨[("i", "int")], [], none⟩)
    ∧ ([("i", "int")] : TypeMap) ≠ [] := by
  exact ⟨rfl, by decide⟩

/-- Claim C2 (amended): for a successful dispatch that returns a result, the
signature field is `None` exactly when every callback parameter is
policy-owned (the early-return branch); whenever value parameters exist, a
returned result carries a non-`None` signature. -/
theorem C2_signature_none_iff (parallel_type : String) (handled : HandledArgs)
    (args : List PyVal) (kwargs : List (String × PyVal)) (w : Workunit)
    (ut : UpdatedTypes)
    (hwu : handled.workunit = .pyWorkunit w)
    (hok : get_annotations parallel_type handled args kwargs = .ok (some ut)) :
    ut.types_signature = none
      ↔ w.params.length = policy_params_of handled.policy parallel_type := by
  rw [get_annotations, hwu] at hok
  simp only [exceptBind_ok] at hok
  cases hpi : infer_policy_args w.params
      (policy_params_of handled.policy parallel_type) handled.policy
      parallel_type [] with
  | error e => rw [hpi] at hok; simp at hok
  | ok types0 =>
    rw [hpi] at hok
    simp only [exceptBind_ok] at hok
    by_cases hlen : w.params.length = policy_params_of handled.policy parallel_type
    · rw [if_pos hlen] at hok
      by_cases hemp : types0.isEmpty
      · simp [hemp] at hok
      · simp [hemp, exceptPure_eq_ok] at hok
        cases hok
        simpa using hlen
    · rw [if_neg hlen] at hok
      by_cases hcnt : ((w.params.length : Int)
          - (policy_params_of handled.policy parallel_type : Int)
          = (((args ++ kwargs_values w.params
                (policy_params_of handled.policy parallel_type) kwargs).length : Int)
            - ((if handled.name ≠ none then (3 : Nat) else 2) : Int)))
      · rw [if_neg (by simpa using hcnt)] at hok
        cases hsp : policy_space handled.policy with
        | error e => rw [hsp] at hok; simp at hok
        | ok space =>
          rw [hsp] at hok
          simp only [exceptBind_ok] at hok
          cases hio : infer_other_args w.params
              (policy_params_of handled.policy parallel_type)
              (args ++ kwargs_values w.params
                (policy_params_of handled.policy parallel_type) kwargs)
              (if handled.name ≠ none then 3 else 2) space (types0, []) with
          | error e => rw [hio] at hok; simp at hok
          | ok maps =>
            rw [hio] at hok
            obtain ⟨types, layouts⟩ := maps
            simp only [exceptBind_ok] at hok
            by_cases hboth : types.isEmpty = true ∧ layouts.isEmpty = true
            · rw [if_pos hboth] at hok
              simp at hok
            · rw [if_neg hboth] at hok
              simp only [exceptBind_ok, exceptPure_eq_ok, Except.ok.injEq,
                Option.some.injEq] at hok
              subst hok
              constructor
              · intro hsig
                exact absurd hsig
                  (get_types_sig_ne_none types layouts
                    (fun hh => hboth ⟨hh.2, hh.1⟩))
              · intro hl
                exact absurd hl hlen
      · rw [if_pos (by simpa using hcnt)] at hok
        simp at hok

/-- Witness for C2 (amended), applied to a call with one policy parameter and
one declared view parameter: the returned signature `i` is not `None`, and
indeed the parameter count (2) differs from the policy-owned count (1). -/
theorem C2_signature_none_iff_witness :
    (UpdatedTypes.types_signature
        ⟨[("i", "int")], [("v", "LayoutRight")], some "i"⟩ = none
      ↔ ([⟨"i", none⟩, ⟨"v", some "View1D"⟩] : List Param).length
          = policy_params_of (.pyPolicy (.range .OpenMP 0 10)) "parallel_for") :=
  C2_signature_none_iff "parallel_for"
    ⟨none, .pyPolicy (.range .OpenMP 0 10),
     .pyWorkunit ⟨[⟨"i", none⟩, ⟨"v", some "View1D"⟩]⟩, none, .pyInt 0⟩
    [.pyPolicy (.range .OpenMP 0 10),
     .pyWorkunit ⟨[⟨"i", none⟩, ⟨"v", some "View1D"⟩]⟩,
     .pyView ⟨Layout.LayoutRight, [4], .dtVal "double"⟩] []
    ⟨[⟨"i", none⟩, ⟨"v", some "View1D"⟩]⟩
    ⟨[("i", "int")], [("v", "LayoutRight")], some "i"⟩ rfl rfl

/-- `String.data` of an append. -/
@[simp] theorem string_data_append (a b : String) :
    (a ++ b).data = a.data ++ b.data := rfl

/-- Bind of a success via `Except.bind`. -/
@[simp] theorem exceptBindM_ok {A B : Type} (a : A) (f : A → Except String B) :
    Except.bind (Except.ok a : Except String A) f = f a := rfl

/-- Bind of a failure via `Except.bind`. -/
@[simp] theorem exceptBindM_error {A B : Type} (e : String) (f : A → Except String B) :
    Except.bind (Except.error e : Except String A) f = Except.error e := rfl

/-- The unsupported-numpy-type message never coincides with the
argument-count assertion message. -/
theorem numpy_msg_ne_assert (t : String) :
    "Numpy type " ++ t ++ " is unsupported"
      ≠ "AssertionError: Unannotated arguments mismatch" := by
  intro h
  have h2 := congrArg String.data h
  rw [string_data_append, string_data_append] at h2
  have hN : "Numpy type ".data = 'N' :: "umpy type ".data := rfl
  have hA : "AssertionError: Unannotated arguments mismatch".data
      = 'A' :: "ssertionError: Unannotated arguments mismatch".data := rfl
  rw [hN, hA] at h2
  simp at h2

/-- The view-dtype error message never coincides with the argument-count
assertion message. -/
theorem view_msg_ne_assert (nm : String) :
    "Cannot infer datatype for view: " ++ nm
      ≠ "AssertionError: Unannotated arguments mismatch" := by
  intro h
  have h2 := congrArg String.data h
  rw [string_data_append] at h2
  have hC : "Cannot infer datatype for view: ".data
      = 'C' :: "annot infer datatype for view: ".data := rfl
  have hA : "AssertionError: Unannotated arguments mismatch".data
      = 'A' :: "ssertionError: Unannotated arguments mismatch".data := rfl
  rw [hC, hA] at h2
  simp at h2

/-- No error produced by a single value-inference step carries the
argument-count assertion message. -/
theorem infer_other_step_error_ne (space : ExecutionSpace) (param : Param)
    (value : PyVal) (acc : TypeMap × LayoutMap) (e : String)
    (h : infer_other_step space param value acc = .error e) :
    e ≠ "AssertionError: Unannotated arguments mismatch" := by
  obtain ⟨types, layouts⟩ := acc
  by_cases hann : param.ann.isSome
  · simp [infer_other_step, hann] at h
  · cases value with
    | pyStr s => simp [infer_other_step, hann, typeNameOf, moduleNameOf] at h
    | pyInt n =>
      simp [infer_other_step, hann, typeNameOf, moduleNameOf, pyBitLength] at h
    | pyFloat => simp [infer_other_step, hann, typeNameOf, moduleNameOf] at h
    | pyView vv =>
      cases hdt : get_pk_datatype vv.dtype with
      | none =>
        simp [infer_other_step, hann, typeNameOf, moduleNameOf, hdt] at h
        rw [← h]
        exact view_msg_ne_assert param.name
      | some dt =>
        simp [infer_other_step, hann, typeNameOf, moduleNameOf, hdt] at h
    | npVal t =>
      by_cases hint : t = "int"
      · subst hint
        simp [infer_other_step, hann, typeNameOf, moduleNameOf, pyBitLength] at h
        rw [← h]
        decide
      · by_cases hmem : t ∈ SUPPORTED_NP_DTYPES
        · simp [infer_other_step, hann, typeNameOf, moduleNameOf, hint, hmem] at h
        · simp [infer_other_step, hann, typeNameOf, moduleNameOf, hint, hmem] at h
          rw [← h]
          exact numpy_msg_ne_assert t
    | pyPolicy p => simp [infer_other_step, hann, typeNameOf, moduleNameOf] at h
    | pyWorkunit w => simp [infer_other_step, hann, typeNameOf, moduleNameOf] at h
    | pyExecSpace s => simp [infer_other_step, hann, typeNameOf, moduleNameOf] at h
    | pyClass cv => simp [infer_other_step, hann, typeNameOf, moduleNameOf] at h
    | otherVal t m =>
      by_cases hint : t = "int"
      · subst hint
        simp [infer_other_step, hann, typeNameOf, moduleNameOf, pyBitLength] at h
        rw [← h]
        decide
      · by_cases hnp : m = "numpy"
        · by_cases hmem : t ∈ SUPPORTED_NP_DTYPES
          · simp [infer_other_step, hann, typeNameOf, moduleNameOf,
              hint, hnp, hmem] at h
          · simp [infer_other_step, hann, typeNameOf, moduleNameOf,
              hint, hnp, hmem] at h
            rw [← h]
            exact numpy_msg_ne_assert t
        · simp [infer_other_step, hann, typeNameOf, moduleNameOf, hint, hnp] at h

/-- No error produced by the value-inference loop carries the argument-count
assertion message. -/
theorem infer_other_go_error_ne (space : ExecutionSpace) (args_list : List PyVal)
    (start_idx policy_params : Nat) (pairs : List (Nat × Param))
    (acc : TypeMap × LayoutMap) (e : String)
    (h : infer_other_go space args_list start_idx policy_params pairs acc
      = .error e) :
    e ≠ "AssertionError: Unannotated arguments mismatch" := by
  induction pairs generalizing acc with
  | nil => simp [infer_other_go] at h
  | cons hd tlp ih =>
    obtain ⟨i, param⟩ := hd
    rw [infer_other_go] at h
    cases hget : args_list.get? (start_idx + i - policy_params) with
    | none =>
      rw [hget] at h
      simp at h
      rw [← h]
      decide
    | some v =>
      simp only [hget] at h
      cases hstep : infer_other_step space param v acc with
      | error e2 =>
        simp only [hstep, exceptBindM_error, Except.error.injEq] at h
        rw [← h]
        exact infer_other_step_error_ne space param v acc e2 hstep
      | ok acc2 =>
        simp only [hstep, exceptBindM_ok] at h
        exact ih acc2 h

/-- Counterexample to claim C8 as stated: with one declared value parameter
and one extra argument, the count of value parameters without a declared type
(zero) differs from the count of extra arguments (one), yet no mismatch error
is raised and inference succeeds. -/
theorem C8_counterexample :
    ((([⟨"i", none⟩, ⟨"v", some "int"⟩] : List Param).drop 1).filter
        (fun p => p.ann.isNone)).length ≠ 1
    ∧ get_annotations "parallel_for"
        ⟨none, .pyPolicy (.range .OpenMP 0 10),
         .pyWorkunit ⟨[⟨"i", none⟩, ⟨"v", some "int"⟩]⟩, none, .pyInt 0⟩
        [.pyPolicy (.range .OpenMP 0 10),
         .pyWorkunit ⟨[⟨"i", none⟩, ⟨"v", some "int"⟩]⟩, .pyInt 5] []
      = .ok (some ⟨[("i", "int")], [], some "i"⟩) := by
  exact ⟨by decide, rfl⟩

/-- Claim C8 (amended): once value-parameter inference is reached, the
mismatch assertion fires exactly when the count of all value parameters
(declared or not) differs from the count of extra arguments, with the
extra-argument offset 3 under a label and 2 otherwise, keyword arguments
having been appended first. -/
theorem C8_argument_count_check (parallel_type : String) (handled : HandledArgs)
    (args : List PyVal) (kwargs : List (String × PyVal)) (w : Workunit)
    (types0 : TypeMap)
    (hwu : handled.workunit = .pyWorkunit w)
    (hpi : infer_policy_args w.params (policy_params_of handled.policy parallel_type)
        handled.policy parallel_type [] = .ok types0)
    (hlen : w.params.length ≠ policy_params_of handled.policy parallel_type) :
    get_annotations parallel_type handled args kwargs
        = .error "AssertionError: Unannotated arguments mismatch"
      ↔ ((w.params.length : Int)
            - (policy_params_of handled.policy parallel_type : Int)
          ≠ ((args ++ kwargs_values w.params
                (policy_params_of handled.policy parallel_type) kwargs).length : Int)
            - ((if handled.name ≠ none then (3 : Nat) else 2) : Int)) := by
  rw [get_annotations, hwu]
  simp only [exceptBind_ok, hpi]
  rw [if_neg hlen]
  by_cases hcnt : ((w.params.length : Int)
      - (policy_params_of handled.policy parallel_type : Int)
      = ((args ++ kwargs_values w.params
            (policy_params_of handled.policy parallel_type) kwargs).length : Int)
        - ((if handled.name ≠ none then (3 : Nat) else 2) : Int))
  · rw [if_neg (by simpa using hcnt)]
    constructor
    · intro habs
      exfalso
      cases hsp : policy_space handled.policy with
      | error e =>
        rw [hsp] at habs
        simp at habs
        have he : e = "AttributeError: space" := by
          cases hp : handled.policy <;> rw [hp] at hsp <;>
            simp [policy_space] at hsp <;> exact hsp.symm
        rw [he] at habs
        exact absurd habs.symm (by decide)
      | ok space =>
        rw [hsp] at habs
        simp only [exceptBind_ok] at habs
        cases hio : infer_other_args w.params
            (policy_params_of handled.policy parallel_type)
            (args ++ kwargs_values w.params
              (policy_params_of handled.policy parallel_type) kwargs)
            (if handled.name ≠ none then 3 else 2) space (types0, []) with
        | error e2 =>
          rw [hio] at habs
          simp at habs
          rw [infer_other_args] at hio
          exact infer_other_go_error_ne _ _ _ _ _ _ _ hio habs
        | ok maps =>
          rw [hio] at habs
          obtain ⟨types, layouts⟩ := maps
          simp only [exceptBind_ok] at habs
          by_cases hboth : types.isEmpty = true ∧ layouts.isEmpty = true
          · rw [if_pos hboth] at habs
            simp at habs
          · rw [if_neg hboth] at habs
            simp at habs
    · intro hcontra
      exact absurd hcnt hcontra
  · rw [if_pos (by simpa using hcnt)]
    exact ⟨fun _ => hcnt, fun _ => rfl⟩

/-- Witness for C8 (amended): a flat-range element-wise dispatch with one
undeclared value parameter and no extra argument makes the count check fail
and raises the mismatch assertion. -/
theorem C8_argument_count_check_witness :
    get_annotations "parallel_for"
        ⟨none, .pyPolicy (.range .OpenMP 0 10),
         .pyWorkunit ⟨[⟨"i", none⟩, ⟨"x", none⟩]⟩, none, .pyInt 0⟩
        [.pyPolicy (.range .OpenMP 0 10),
         .pyWorkunit ⟨[⟨"i", none⟩, ⟨"x", none⟩]⟩] []
      = .error "AssertionError: Unannotated arguments mismatch" := by
  have h := C8_argument_count_check "parallel_for"
    ⟨none, .pyPolicy (.range .OpenMP 0 10),
     .pyWorkunit ⟨[⟨"i", none⟩, ⟨"x", none⟩]⟩, none, .pyInt 0⟩
    [.pyPolicy (.range .OpenMP 0 10),
     .pyWorkunit ⟨[⟨"i", none⟩, ⟨"x", none⟩]⟩] []
    ⟨[⟨"i", none⟩, ⟨"x", none⟩]⟩ [("i", "int")] rfl rfl (by decide)
  exact h.mpr (by decide)

/-! ## Claim C4 machinery -/

/-- Whether the policy is one of the four classes the policy adapter knows. -/
def supported_policy : PyVal → Bool
  | .pyPolicy (.range _ _ _) => true
  | .pyPolicy (.mdrange _ _ _) => true
  | .pyPolicy (.team _) => true
  | .pyPolicy (.teamThreadRange _) => true
  | _ => false

/-- The base role claim C4 assigns by policy kind at position `i`: `int` for
the first parameter of a flat-range or team-thread-range policy, `TeamMember`
for the first parameter of a team policy, `int` for each of the first arity
positions of a multi-dimensional range policy. -/
def base_role (policy : PyVal) (i : Nat) : Option String :=
  match policy with
  | .pyPolicy (.range _ _ _) => if i = 0 then some "int" else none
  | .pyPolicy (.teamThreadRange _) => if i = 0 then some "int" else none
  | .pyPolicy (.team _) => if i = 0 then some "TeamMember" else none
  | .pyPolicy (.mdrange _ b _) => if i < b.length then some "int" else none
  | _ => none

/-- The final role claim C4 assigns at position `i` of `policy_params`: the
scan final-pass position becomes `bool`, the accumulator position (last for a
reduction, second-to-last for a scan) becomes `Acc:double`, overriding the
base role; all other positions keep the base role. -/
def final_role (policy : PyVal) (parallel_type : String) (policy_params i : Nat) :
    Option String :=
  if i + 1 = policy_params ∧ parallel_type = "parallel_scan" then some "bool"
  else if (i + 1 = policy_params ∧ parallel_type = "parallel_reduce")
      ∨ (i + 2 = policy_params ∧ parallel_type = "parallel_scan") then
    some "Acc:double"
  else base_role policy i

/-- A declared parameter is skipped by the policy loop. -/
theorem infer_policy_step_declared (policy : PyVal) (parallel_type : String)
    (policy_params i : Nat) (param : Param) (m : TypeMap)
    (hann : param.ann.isSome) :
    infer_policy_step policy parallel_type policy_params i param m = .ok m := by
  simp [infer_policy_step, hann]

/-- Collapsing the accumulator and scan-final overrides over the base role
gives the final role in one insertion. -/
theorem override_collapse (policy : PyVal) (parallel_type : String)
    (policy_params i : Nat) (nm : String) (m : TypeMap) :
    (if i + 1 = policy_params ∧ parallel_type = "parallel_scan" then
       insertA
         (if (i + 1 = policy_params ∧ parallel_type = "parallel_reduce")
             ∨ (i + 2 = policy_params ∧ parallel_type = "parallel_scan") then
            insertA (match base_role policy i with
                     | some r => insertA m nm r
                     | none => m) nm "Acc:double"
          else (match base_role policy i with
                | some r => insertA m nm r
                | none => m)) nm "bool"
     else
       (if (i + 1 = policy_params ∧ parallel_type = "parallel_reduce")
           ∨ (i + 2 = policy_params ∧ parallel_type = "parallel_scan") then
          insertA (match base_role policy i with
                   | some r => insertA m nm r
                   | none => m) nm "Acc:double"
        else (match base_role policy i with
              | some r => insertA m nm r
              | none => m)))
      = match final_role policy parallel_type policy_params i with
        | some r => insertA m nm r
        | none => m := by
  by_cases hbool : i + 1 = policy_params ∧ parallel_type = "parallel_scan"
  · have hacc : ¬((i + 1 = policy_params ∧ parallel_type = "parallel_reduce")
        ∨ (i + 2 = policy_params ∧ parallel_type = "parallel_scan")) := by
      rintro (⟨h1, h2⟩ | ⟨h1, h2⟩)
      · rw [hbool.2] at h2
        exact absurd h2 (by decide)
      · omega
    rw [if_pos hbool, if_neg hacc, final_role, if_pos hbool]
    cases hbr : base_role policy i <;> simp [insertA_insertA]
  · by_cases hacc : (i + 1 = policy_params ∧ parallel_type = "parallel_reduce")
        ∨ (i + 2 = policy_params ∧ parallel_type = "parallel_scan")
    · rw [if_neg hbool, if_pos hacc, final_role, if_neg hbool, if_pos hacc]
      cases hbr : base_role policy i <;> simp [insertA_insertA]
    · rw [if_neg hbool, if_neg hacc, final_role, if_neg hbool, if_neg hacc]

/-- On a supported policy, one loop iteration of an undeclared parameter is
the base assignment followed by the two overrides. -/
theorem infer_policy_step_unfold (policy : PyVal) (parallel_type : String)
    (policy_params i : Nat) (param : Param) (m : TypeMap)
    (hsup : supported_policy policy = true) (hann : param.ann = none) :
    infer_policy_step policy parallel_type policy_params i param m
      = .ok (if i + 1 = policy_params ∧ parallel_type = "parallel_scan" then
               insertA
                 (if (i + 1 = policy_params ∧ parallel_type = "parallel_reduce")
                     ∨ (i + 2 = policy_params ∧ parallel_type = "parallel_scan") then
                    insertA (match base_role policy i with
                             | some r => insertA m param.name r
                             | none => m) param.name "Acc:double"
                  else (match base_role policy i with
                        | some r => insertA m param.name r
                        | none => m)) param.name "bool"
             else
               (if (i + 1 = policy_params ∧ parallel_type = "parallel_reduce")
                   ∨ (i + 2 = policy_params ∧ parallel_type = "parallel_scan") then
                  insertA (match base_role policy i with
                           | some r => insertA m param.name r
                           | none => m) param.name "Acc:double"
                else (match base_role policy i with
                      | some r => insertA m param.name r
                      | none => m))) := by
  have hann2 : param.ann.isSome = false := by simp [hann]
  cases policy with
  | pyPolicy p =>
    cases p with
    | range space b e =>
      by_cases hi : i = 0 <;>
        simp [infer_policy_step, hann2, base_role, hi]
    | mdrange space b e =>
      by_cases hi : i < b.length <;>
        simp [infer_policy_step, hann2, base_role, hi]
    | team space =>
      by_cases hi : i = 0 <;>
        simp [infer_policy_step, hann2, base_role, hi]
    | teamThreadRange space =>
      by_cases hi : i = 0 <;>
        simp [infer_policy_step, hann2, base_role, hi]
    | otherPolicy space => simp [supported_policy] at hsup
  | _ => simp [supported_policy] at hsup

/-- On a supported policy, one loop iteration of an undeclared parameter
updates the parameter's entry to its final role (or leaves the map unchanged
when the position has no role). -/
theorem infer_policy_step_ok (policy : PyVal) (parallel_type : String)
    (policy_params i : Nat) (param : Param) (m : TypeMap)
    (hsup : supported_policy policy = true) (hann : param.ann = none) :
    infer_policy_step policy parallel_type policy_params i param m
      = .ok (match final_role policy parallel_type policy_params i with
             | some r => insertA m param.name r
             | none => m) := by
  rw [infer_policy_step_unfold policy parallel_type policy_params i param m hsup hann,
    override_collapse]

/-- On an unsupported policy, an undeclared parameter makes the loop raise. -/
theorem infer_policy_step_err (policy : PyVal) (parallel_type : String)
    (policy_params i : Nat) (param : Param) (m : TypeMap)
    (hsup : supported_policy policy = false) (hann : param.ann = none) :
    infer_policy_step policy parallel_type policy_params i param m
      = .error "Automatic annotations not supported for this policy" := by
  have hann2 : param.ann.isSome = false := by simp [hann]
  cases policy with
  | pyPolicy p => cases p <;> simp_all [supported_policy, infer_policy_step]
  | _ => simp [infer_policy_step, hann2]

/-- Distinct positions of a parameter list with no duplicate names hold
parameters with distinct names. -/
theorem name_ne_of_ne_idx (params : List Param)
    (hnodup : (params.map Param.name).Nodup) (i j : Nat) (q p : Param)
    (hq : params.get? i = some q) (hp : params.get? j = some p) (hij : i ≠ j) :
    q.name ≠ p.name := by
  intro heq
  apply hij
  have hi : i < params.length := by
    by_contra hle
    rw [List.get?_eq_none.mpr (by omega)] at hq
    cases hq
  have hi2 : i < (params.map Param.name).length := by simpa using hi
  apply List.get?_inj hi2 hnodup
  rw [List.get?_map, List.get?_map, hq, hp]
  simp [heq]

/-- A successful loop iteration never changes the entry of a name other than
the parameter's own. -/
theorem infer_policy_step_lookup_ne (policy : PyVal) (parallel_type : String)
    (policy_params i : Nat) (param : Param) (m m1 : TypeMap) (nm : String)
    (hstep : infer_policy_step policy parallel_type policy_params i param m
      = .ok m1)
    (hne : param.name ≠ nm) :
    lookupA m1 nm = lookupA m nm := by
  by_cases hann : param.ann.isSome
  · rw [infer_policy_step_declared _ _ _ _ _ _ hann] at hstep
    simp only [Except.ok.injEq] at hstep
    rw [← hstep]
  · have hann2 : param.ann = none := Option.not_isSome_iff_eq_none.mp hann
    by_cases hsup : supported_policy policy = true
    · rw [infer_policy_step_ok _ _ _ _ _ _ hsup hann2] at hstep
      simp only [Except.ok.injEq] at hstep
      rw [← hstep]
      cases hfr : final_role policy parallel_type policy_params i with
      | some r => exact lookupA_insertA_ne m param.name nm r hne
      | none => rfl
    · rw [infer_policy_step_err _ _ _ _ _ _ (by simpa using hsup) hann2] at hstep
      cases hstep

/-- On a supported policy the loop always succeeds when every listed index is
in range. -/
theorem infer_policy_go_ok (policy : PyVal) (parallel_type : String)
    (policy_params : Nat) (params : List Param)
    (hsup : supported_policy policy = true) (idxs : List Nat) :
    ∀ m : TypeMap, (∀ i ∈ idxs, i < params.length) →
      ∃ m2, infer_policy_go policy parallel_type policy_params params idxs m
        = .ok m2 := by
  induction idxs with
  | nil =>
    intro m _
    exact ⟨m, rfl⟩
  | cons i rest ih =>
    intro m hvalid
    have hi : i < params.length := hvalid i (by simp)
    obtain ⟨p, hp⟩ : ∃ p, params.get? i = some p := ⟨_, List.get?_eq_get hi⟩
    rw [infer_policy_go]
    simp only [hp]
    by_cases hann : p.ann.isSome
    · rw [infer_policy_step_declared _ _ _ _ _ _ hann]
      simp only [exceptBindM_ok]
      exact ih m (fun j hj => hvalid j (List.mem_cons_of_mem _ hj))
    · have hann2 : p.ann = none := Option.not_isSome_iff_eq_none.mp hann
      rw [infer_policy_step_ok _ _ _ _ _ _ hsup hann2]
      simp only [exceptBindM_ok]
      exact ih _ (fun j hj => hvalid j (List.mem_cons_of_mem _ hj))

/-- The loop never changes the entry of a name that none of the listed
parameters carries. -/
theorem infer_policy_go_lookup_ne (policy : PyVal) (parallel_type : String)
    (policy_params : Nat) (params : List Param) (idxs : List Nat) :
    ∀ (m m2 : TypeMap) (nm : String),
      infer_policy_go policy parallel_type policy_params params idxs m = .ok m2 →
      (∀ i ∈ idxs, ∀ p, params.get? i = some p → p.name ≠ nm) →
      lookupA m2 nm = lookupA m nm := by
  induction idxs with
  | nil =>
    intro m m2 nm hgo _
    rw [infer_policy_go] at hgo
    simp only [Except.ok.injEq] at hgo
    rw [hgo]
  | cons i rest ih =>
    intro m m2 nm hgo hnm
    rw [infer_policy_go] at hgo
    cases hget : params.get? i with
    | none =>
      rw [hget] at hgo
      simp at hgo
    | some p =>
      simp only [hget] at hgo
      cases hstep : infer_policy_step policy parallel_type policy_params i p m with
      | error e =>
        rw [hstep] at hgo
        simp at hgo
      | ok m1 =>
        rw [hstep] at hgo
        simp only [exceptBindM_ok] at hgo
        have h1 := infer_policy_step_lookup_ne _ _ _ _ _ _ _ _ hstep
          (hnm i (by simp) p hget)
        have h2 := ih m1 m2 nm hgo
          (fun j hj q hq => hnm j (List.mem_cons_of_mem _ hj) q hq)
        rw [h2, h1]

/-- On a supported policy, the entry of an undeclared parameter at a listed
index ends up at its final role. -/
theorem infer_policy_go_lookup (policy : PyVal) (parallel_type : String)
    (policy_params : Nat) (params : List Param)
    (hsup : supported_policy policy = true)
    (hnodup : (params.map Param.name).Nodup) (idxs : List Nat) :
    ∀ (m m2 : TypeMap) (j : Nat) (p : Param),
      idxs.Nodup → (∀ i ∈ idxs, i < params.length) →
      j ∈ idxs → params.get? j = some p → p.ann = none →
      infer_policy_go policy parallel_type policy_params params idxs m = .ok m2 →
      lookupA m2 p.name
        = (final_role policy parallel_type policy_params j).or
            (lookupA m p.name) := by
  induction idxs with
  | nil =>
    intro m m2 j p _ _ hj
    cases hj
  | cons i rest ih =>
    intro m m2 j p hnodupidx hvalid hj hget hann hgo
    rw [infer_policy_go] at hgo
    rcases List.mem_cons.mp hj with hji | hjr
    · subst hji
      simp only [hget] at hgo
      rw [infer_policy_step_ok _ _ _ _ _ _ hsup hann] at hgo
      simp only [exceptBindM_ok] at hgo
      have hpres : lookupA m2 p.name
          = lookupA (match final_role policy parallel_type policy_params j with
                     | some r => insertA m p.name r
                     | none => m) p.name := by
        apply infer_policy_go_lookup_ne _ _ _ _ rest _ _ _ hgo
        intro k hk q hq
        have hkj : k ≠ j := fun h => (List.nodup_cons.mp hnodupidx).1 (h ▸ hk)
        exact name_ne_of_ne_idx params hnodup k j q p hq hget hkj
      rw [hpres]
      cases hfr : final_role policy parallel_type policy_params j with
      | some r => simp [lookupA_insertA_self]
      | none => simp
    · have hij : i ≠ j := fun h => (List.nodup_cons.mp hnodupidx).1 (h ▸ hjr)
      cases hget2 : params.get? i with
      | none =>
        have hi : i < params.length := hvalid i (by simp)
        rw [List.get?_eq_get hi] at hget2
        cases hget2
      | some q =>
        simp only [hget2] at hgo
        cases hstep : infer_policy_step policy parallel_type policy_params i q m with
        | error e =>
          rw [hstep] at hgo
          simp at hgo
        | ok m1 =>
          rw [hstep] at hgo
          simp only [exceptBindM_ok] at hgo
          have hqp : q.name ≠ p.name :=
            name_ne_of_ne_idx params hnodup i j q p hget2 hget hij
          rw [ih m1 m2 j p (List.nodup_cons.mp hnodupidx).2
              (fun k hk => hvalid k (List.mem_cons_of_mem _ hk)) hjr hget hann hgo,
            infer_policy_step_lookup_ne _ _ _ _ _ _ _ _ hstep hqp]

/-- On an unsupported policy, the loop raises as soon as it meets an
undeclared parameter at a listed index. -/
theorem infer_policy_go_err (policy : PyVal) (parallel_type : String)
    (policy_params : Nat) (params : List Param)
    (hsup : supported_policy policy = false) (idxs : List Nat) :
    ∀ (m : TypeMap) (j : Nat) (p : Param),
      (∀ i ∈ idxs, i < params.length) → j ∈ idxs →
      params.get? j = some p → p.ann = none →
      infer_policy_go policy parallel_type policy_params params idxs m
        = .error "Automatic annotations not supported for this policy" := by
  induction idxs with
  | nil =>
    intro m j p _ hj
    cases hj
  | cons i rest ih =>
    intro m j p hvalid hj hget hann
    rw [infer_policy_go]
    have hi : i < params.length := hvalid i (by simp)
    obtain ⟨q, hq⟩ : ∃ q, params.get? i = some q := ⟨_, List.get?_eq_get hi⟩
    simp only [hq]
    by_cases hann2 : q.ann.isSome
    · rw [infer_policy_step_declared _ _ _ _ _ _ hann2]
      simp only [exceptBindM_ok]
      rcases List.mem_cons.mp hj with hji | hjr
      · subst hji
        rw [hq] at hget
        simp only [Option.some.injEq] at hget
        rw [hget, hann] at hann2
        simp at hann2
      · exact ih m j p (fun k hk => hvalid k (List.mem_cons_of_mem _ hk)) hjr
          hget hann
    · have h2 : q.ann = none := Option.not_isSome_iff_eq_none.mp hann2
      rw [infer_policy_step_err _ _ _ _ _ _ hsup h2]
      rfl

/-- Claim C4: for each of the first `policy_params` callback parameters that
lacks a declared type, `infer_policy_args` assigns exactly the claimed role:
base role `int` (flat range, team-thread range, or one per dimension of a
multi-dimensional range) or `TeamMember` (team policy), the accumulator
position then overridden to `Acc:double` (last for a reduction, second-to-last
for a scan) and the scan final-pass position to `bool`; any other policy kind
with an undeclared policy parameter is a hard error. -/
theorem C4_policy_role_assignment (policy : PyVal) (parallel_type : String)
    (params : List Param) (policy_params : Nat)
    (hnodup : (params.map Param.name).Nodup)
    (hpp : policy_params ≤ params.length) :
    (supported_policy policy = true →
      ∃ m, infer_policy_args params policy_params policy parallel_type [] = .ok m
        ∧ ∀ j p, j < policy_params → params.get? j = some p → p.ann = none →
            lookupA m p.name = final_role policy parallel_type policy_params j)
    ∧ (supported_policy policy = false →
       ∀ j p, j < policy_params → params.get? j = some p → p.ann = none →
       infer_policy_args params policy_params policy parallel_type []
         = .error "Automatic annotations not supported for this policy") := by
  constructor
  · intro hsup
    obtain ⟨m2, hgo⟩ := infer_policy_go_ok policy parallel_type policy_params
      params hsup (List.range policy_params) []
      (fun i hi => lt_of_lt_of_le (List.mem_range.mp hi) hpp)
    refine ⟨m2, hgo, ?_⟩
    intro j p hj hget hann
    have h := infer_policy_go_lookup policy parallel_type policy_params params
      hsup hnodup (List.range policy_params) [] m2 j p (List.nodup_range _)
      (fun i hi => lt_of_lt_of_le (List.mem_range.mp hi) hpp)
      (List.mem_range.mpr hj) hget hann hgo
    simpa [lookupA] using h
  · intro hsup j p hj hget hann
    exact infer_policy_go_err policy parallel_type policy_params params hsup
      (List.range policy_params) [] j p
      (fun i hi => lt_of_lt_of_le (List.mem_range.mp hi) hpp)
      (List.mem_range.mpr hj) hget hann

/-- Witness for C4: a scan over a flat range with three undeclared parameters
infers `int`, `Acc:double`, `bool` in order; the supported branch of the
theorem reproduces the `Acc:double` entry, and its unsupported branch raises
on an unrecognized policy kind. -/
theorem C4_policy_role_assignment_witness :
    infer_policy_args [⟨"i", none⟩, ⟨"acc", none⟩, ⟨"fin", none⟩] 3
        (.pyPolicy (.range .OpenMP 0 10)) "parallel_scan" []
      = .ok [("i", "int"), ("acc", "Acc:double"), ("fin", "bool")]
    ∧ final_role (.pyPolicy (.range .OpenMP 0 10)) "parallel_scan" 3 1
      = some "Acc:double"
    ∧ infer_policy_args [⟨"i", none⟩] 1 (.pyPolicy (.otherPolicy .OpenMP))
        "parallel_for" []
      = .error "Automatic annotations not supported for this policy" := by
  refine ⟨rfl, rfl, ?_⟩
  exact (C4_policy_role_assignment (.pyPolicy (.otherPolicy .OpenMP))
    "parallel_for" [⟨"i", none⟩] 1 (by decide) (by decide)).2 rfl 0
    ⟨"i", none⟩ (by decide) rfl rfl

end PK
